import Mathlib

/-!
Verification of `face-det-rec/train.py` from the smart-zoneminder repository.

The script is a linear sequence of library calls: load a pickled dataset of
128-d face encodings with string name labels, encode the labels to integers,
split into train/test sets, run a grid search for an SVM and a randomized
search for an XGBoost classifier (both scored by stratified 5-fold
cross-validation), evaluate each best model on the test split, and serialize
the two best models and the label encoder to fixed paths.

We embed the script as a pure function.  Library-internal computation that the
script merely composes (cross-validation scoring, fitted-model prediction,
pickling, and the seeded pseudo-random streams of numpy) is abstracted into an
oracle record; everything the script itself determines (the hyperparameter
grids, the argmax selection rule of the searches, the split sizes, the
stratified-fold construction, the order of steps, the set of files written) is
modelled concretely from the source and from the documented semantics of the
scikit-learn calls the source makes.
-/

/-- A face encoding vector: a numpy float array, modelled over ℚ. -/
abbrev Vec := List ℚ

/-- The 2-D encoding matrix (one row per sample). -/
abbrev EncMat := List Vec

/-- Integer class labels. -/
abbrev Labels := List Nat

/-- One cross-validation fold: (train indices, validation indices). -/
abbrev Fold := List Nat × List Nat

/-- Contents of the input pickle produced by `encode_faces.py`:
a dict with parallel lists under keys `encodings` and `names`
(train.py lines 39-43, 49). -/
structure DataPickle where
  encodings : List Vec
  names : List String
deriving DecidableEq

/-- train.py line 21. -/
def KNOWN_FACE_ENCODINGS_PATH : String :=
  "/home/lindo/develop/smart-zoneminder/face-det-rec/encodings.pickle"

/-- train.py line 23. -/
def SVM_MODEL_PATH : String :=
  "/home/lindo/develop/smart-zoneminder/face-det-rec/svm_face_recognizer.pickle"

/-- train.py line 25. -/
def XGB_MODEL_PATH : String :=
  "/home/lindo/develop/smart-zoneminder/face-det-rec/xgb_face_recognizer.pickle"

/-- train.py line 27. -/
def LABEL_PATH : String :=
  "/home/lindo/develop/smart-zoneminder/face-det-rec/face_labels.pickle"

/-- train.py line 30. -/
def RANDOM_SEED : Nat := 1234

/-- train.py line 33. -/
def FOLDS : Nat := 5

/-- train.py line 36. -/
def PARA_COMB : Nat := 20

/-! ### LabelEncoder (sklearn.preprocessing.LabelEncoder, train.py lines 48-49)

`fit` stores `classes_ = np.unique(y)`: the distinct labels in sorted order.
`transform` maps a label to its index in `classes_` (via `searchsorted`);
`inverse_transform` maps an index back to `classes_[i]`. -/

/-- Lexicographic comparison of strings by their character lists (the order
`np.unique` sorts by), written so the kernel can evaluate it. -/
def strLeB : List Char → List Char → Bool
  | [], _ => true
  | _ :: _, [] => false
  | a :: s, b :: t => if a < b then true else if b < a then false else strLeB s t

/-- `np.unique` on a list of strings: distinct elements, sorted. -/
def npUnique (names : List String) : List String :=
  names.dedup.insertionSort (fun a b => strLeB a.data b.data = true)

/-- `LabelEncoder.transform` on one label, given the fitted classes. -/
def leTransform (classes : List String) (s : String) : Nat :=
  classes.indexOf s

/-- `LabelEncoder.inverse_transform` on one index. -/
def leInverse (classes : List String) (i : Nat) : String :=
  classes.getD i ""


/-! ### Hyperparameter grids (train.py lines 56-60 and 82-88) -/

/-- One SVC hyperparameter candidate of the grid at train.py lines 58-60. -/
structure SvmParams where
  C : ℚ
  gamma : Option ℚ
  kernel : String
deriving DecidableEq

/-- train.py line 56: `Cs = [0.001, 0.01, 0.1, 1, 10, 100]`. -/
def Cs : List ℚ := [1/1000, 1/100, 1/10, 1, 10, 100]

/-- train.py line 57: `gammas = [0.001, 0.01, 0.1, 1, 10, 100]`. -/
def gammas : List ℚ := [1/1000, 1/100, 1/10, 1, 10, 100]

/-- The candidate list `ParameterGrid` enumerates from the two grid dicts at
train.py lines 58-60: all (C, linear) pairs, then all (C, gamma, rbf)
triples. -/
def svmParamGrid : List SvmParams :=
  Cs.map (fun c => ⟨c, none, "linear"⟩) ++
    Cs.flatMap (fun c => gammas.map (fun g => ⟨c, some g, "rbf"⟩))

/-- One XGBoost hyperparameter candidate of the grid at train.py lines 82-88. -/
structure XgbParams where
  min_child_weight : ℚ
  gamma : ℚ
  subsample : ℚ
  colsample_bytree : ℚ
  max_depth : ℚ
deriving DecidableEq

/-- The full Cartesian product of the distribution lists at train.py
lines 82-88, from which `RandomizedSearchCV` samples its candidates. -/
def xgbFullGrid : List XgbParams :=
  [(1 : ℚ), 5, 10].flatMap fun w =>
    [(1 : ℚ)/2, 1, 3/2, 2, 5].flatMap fun g =>
      [(3 : ℚ)/5, 4/5, 1].flatMap fun s =>
        [(3 : ℚ)/5, 4/5, 1].flatMap fun c =>
          [(3 : ℚ), 4, 5].map fun d => ⟨w, g, s, c, d⟩


/-! ### Search winner selection

Both `GridSearchCV` and `RandomizedSearchCV` pick
`best_index_ = rank_test_score.argmin()`: the first candidate attaining the
highest mean cross-validation score. -/

/-- First candidate of the list with the highest score (`none` only on an
empty candidate list). -/
def bestBy {α : Type} (score : α → ℚ) : List α → Option α
  | [] => none
  | a :: rest =>
    match bestBy score rest with
    | none => some a
    | some b => if score a < score b then some b else some a


/-! ### train_test_split (train.py lines 107-108)

`train_test_split(data, labels, test_size=0.20, random_state=RANDOM_SEED,
shuffle=True)` draws a seeded permutation of the sample indices, takes the
first `n_test = ceil(0.20 * n)` of them as the test set and the remaining
`floor(0.80 * n)` as the train set (sklearn `ShuffleSplit._iter_indices`;
the 0.20 fraction is modelled in exact rational arithmetic). -/

/-- `ceil(0.20 * n)`: the sklearn test-set size for `test_size=0.20`. -/
def nTestOf (n : Nat) : Nat := (n + 4) / 5

/-! ### StratifiedKFold (train.py lines 111, 116, 128)

`StratifiedKFold(n_splits=FOLDS)` with the default `shuffle=False` is fully
deterministic.  Its `_make_test_folds` assigns the j-th occurrence (in data
order) of a class of size `cnt` the test-fold index that a plain
`KFold(n_splits)` without shuffling would give sample `j` among
`max cnt n_splits` padded samples.  `skfSplit` below gives the fold sequence
when the generator is consumed successfully; the `ValueError` its consumption
raises when `n_splits` exceeds the sample count is modelled at the run level
by `foldCountOk` inside `runTop`. -/

/-- `KFold(k, shuffle=False)` on `m` samples cuts `0..m-1` into `k` contiguous
test blocks: the first `m % k` blocks have size `m / k + 1`, the rest size
`m / k`.  `kfoldOf m k j` is the index of the block containing sample `j`. -/
def kfoldOf (m k j : Nat) : Nat :=
  let q := m / k
  let r := m % k
  if j < (q + 1) * r then j / (q + 1) else r + (j - (q + 1) * r) / q

/-- The test-fold index assigned to each sample position by
`StratifiedKFold(k, shuffle=False)._make_test_folds(y)`. -/
def testFoldsOf (k : Nat) (y : Labels) : List Nat :=
  (List.range y.length).map fun p =>
    let c := y.getD p 0
    kfoldOf (max (y.count c) k) k ((y.take p).count c)

/-- `StratifiedKFold(k).split(X, y)`: the sequence of k (train indices,
validation indices) pairs the generator yields. -/
def skfSplit (k : Nat) (y : Labels) : List Fold :=
  (List.range k).map fun i =>
    ((List.range y.length).filter fun p => (testFoldsOf k y).getD p 0 != i,
     (List.range y.length).filter fun p => (testFoldsOf k y).getD p 0 == i)


/-! ### The oracle: library-internal computation the script composes -/

/-- The seeded pseudo-random streams the script consumes: the permutation
drawn inside `train_test_split(..., random_state=seed, shuffle=True)` and the
candidate sampling of `RandomizedSearchCV(..., random_state=seed)`.  Both are
deterministic functions of the seed (first argument). -/
structure Rng where
  shufflePerm : Nat → Nat → List Nat
  sampleXgb : Nat → Nat → List XgbParams

/-- `GridSearchCV.best_estimator_` with the default `refit=True` is the SVC
re-fit with the winning hyperparameters on the whole search data; `SVC.fit`
is deterministic given its `random_state` (train.py lines 61-62), so the
fitted model is determined by (params, random_state, X, y). -/
structure SvmModel where
  params : SvmParams
  random_state : Nat
  X : EncMat
  y : Labels
deriving DecidableEq

/-- `RandomizedSearchCV.best_estimator_`: the XGBClassifier re-fit with the
winning hyperparameters on the whole search data (train.py lines 89-90). -/
structure XgbModel where
  params : XgbParams
  random_state : Nat
  X : EncMat
  y : Labels
deriving DecidableEq

/-- Library-internal numeric computation the script composes but does not
implement: the mean cross-validation score of a candidate (given the
estimator seed, the candidate, the search data and the folds), prediction of
a fitted model on one sample, and pickle serialization to bytes.  All are
deterministic functions. -/
structure MlOracle where
  cvScoreSvm : Nat → SvmParams → EncMat → Labels → List Fold → ℚ
  cvScoreXgb : Nat → XgbParams → EncMat → Labels → List Fold → ℚ
  predictSvm : SvmModel → Vec → Nat
  predictXgb : XgbModel → Vec → Nat
  pickleSvm : SvmModel → List Nat
  pickleXgb : XgbModel → List Nat
  pickleLE : List String → List Nat

/-! ### The script

train.py is a straight-line script; we name each of its intermediate values
as a function of the oracles and the input, in source order, and assemble
them into the run record. -/

/-- Line 43: `data = np.array(data_pickle['encodings'])`; `np.array` keeps
each encoding row as is (no dimension check anywhere in the script). -/
def dataOf (dp : DataPickle) : EncMat := dp.encodings

/-- Lines 48-49: the classes the label encoder fits on the full name list. -/
def classesOf (dp : DataPickle) : List String := npUnique dp.names

/-- Line 49: `labels = le.fit_transform(data_pickle['names'])`. -/
def labelsOf (dp : DataPickle) : Labels := dp.names.map (leTransform (classesOf dp))

/-- Lines 107-108: the seeded permutation `train_test_split` draws with
`random_state=RANDOM_SEED, shuffle=True`. -/
def permOf (rng : Rng) (dp : DataPickle) : List Nat :=
  rng.shufflePerm RANDOM_SEED (dataOf dp).length

/-- Lines 107-108: test indices = first `ceil(0.20 * n)` of the permutation. -/
def testIdxOf (rng : Rng) (dp : DataPickle) : List Nat :=
  (permOf rng dp).take (nTestOf (dataOf dp).length)

/-- Lines 107-108: train indices = the rest of the permutation. -/
def trainIdxOf (rng : Rng) (dp : DataPickle) : List Nat :=
  (permOf rng dp).drop (nTestOf (dataOf dp).length)

/-- Line 107: `X_train`. -/
def X_trainOf (rng : Rng) (dp : DataPickle) : EncMat :=
  (trainIdxOf rng dp).map fun i => (dataOf dp).getD i []

/-- Line 107: `X_test`. -/
def X_testOf (rng : Rng) (dp : DataPickle) : EncMat :=
  (testIdxOf rng dp).map fun i => (dataOf dp).getD i []

/-- Line 107: `y_train`. -/
def y_trainOf (rng : Rng) (dp : DataPickle) : Labels :=
  (trainIdxOf rng dp).map fun i => (labelsOf dp).getD i 0

/-- Line 107: `y_test`. -/
def y_testOf (rng : Rng) (dp : DataPickle) : Labels :=
  (testIdxOf rng dp).map fun i => (labelsOf dp).getD i 0

/-- `find_best_svm_estimator` (train.py lines 52-74): exhaustive grid search
over `svmParamGrid` scored by cross-validation on the given folds; returns
the best estimator (highest mean score, first on ties) re-fit on the whole
search data with `random_state=random_seed`. -/
def find_best_svm_estimator (ml : MlOracle) (X : EncMat) (y : Labels)
    (cv : List Fold) (random_seed : Nat) : SvmModel :=
  ⟨(bestBy (fun p => ml.cvScoreSvm random_seed p X y cv) svmParamGrid).getD
    ⟨0, none, ""⟩, random_seed, X, y⟩

/-- `find_best_xgb_estimator` (train.py lines 76-104): randomized search over
`param_comb` candidates sampled by the seeded sampler from `xgbFullGrid`,
scored by cross-validation on the given folds; returns the best one re-fit on
the whole search data. -/
def find_best_xgb_estimator (ml : MlOracle) (rng : Rng) (X : EncMat) (y : Labels)
    (cv : List Fold) (param_comb : Nat) (random_seed : Nat) : XgbModel :=
  ⟨(bestBy (fun p => ml.cvScoreXgb random_seed p X y cv)
      (rng.sampleXgb random_seed param_comb)).getD
    ⟨0, 0, 0, 0, 0⟩, random_seed, X, y⟩

/-- Line 116: the folds `skf.split(X_train, y_train)` yields for the svm
search (`StratifiedKFold` only consults `y` and the sample count). -/
def svmFoldsOf (rng : Rng) (dp : DataPickle) : List Fold :=
  skfSplit FOLDS (y_trainOf rng dp)

/-- Line 116: `best_svm`. -/
def best_svmOf (ml : MlOracle) (rng : Rng) (dp : DataPickle) : SvmModel :=
  find_best_svm_estimator ml (X_trainOf rng dp) (y_trainOf rng dp)
    (svmFoldsOf rng dp) RANDOM_SEED

/-- Line 118: `y_pred = best_svm.predict(X_test)`. -/
def svm_y_predOf (ml : MlOracle) (rng : Rng) (dp : DataPickle) : Labels :=
  (X_testOf rng dp).map (ml.predictSvm (best_svmOf ml rng dp))

/-- Line 128: the folds of the second, separate `skf.split(X_train, y_train)`
call, handed to the xgb search. -/
def xgbFoldsOf (rng : Rng) (dp : DataPickle) : List Fold :=
  skfSplit FOLDS (y_trainOf rng dp)

/-- Lines 91-93: the `PARA_COMB` candidates `RandomizedSearchCV` samples with
`random_state=RANDOM_SEED`. -/
def xgbSampledOf (rng : Rng) : List XgbParams :=
  rng.sampleXgb RANDOM_SEED PARA_COMB

/-- Lines 128-129: `best_xgb`. -/
def best_xgbOf (ml : MlOracle) (rng : Rng) (dp : DataPickle) : XgbModel :=
  find_best_xgb_estimator ml rng (X_trainOf rng dp) (y_trainOf rng dp)
    (xgbFoldsOf rng dp) PARA_COMB RANDOM_SEED

/-- Line 131: `y_pred = best_xgb.predict(X_test)`. -/
def xgb_y_predOf (ml : MlOracle) (rng : Rng) (dp : DataPickle) : Labels :=
  (X_testOf rng dp).map (ml.predictXgb (best_xgbOf ml rng dp))

/-- The file writes the script performs, in source order: the svm model
(lines 124-125), the xgb model (lines 137-138), the label encoder
(lines 142-143). -/
def scriptWrites (ml : MlOracle) (rng : Rng) (dp : DataPickle) :
    List (String × List Nat) :=
  [(SVM_MODEL_PATH, ml.pickleSvm (best_svmOf ml rng dp)),
   (XGB_MODEL_PATH, ml.pickleXgb (best_xgbOf ml rng dp)),
   (LABEL_PATH, ml.pickleLE (classesOf dp))]

/-- The externally visible steps of train.py, used to record execution
order. -/
inductive Step
  | loadData
  | encodeLabels
  | splitData
  | makeSKF
  | svmSearch
  | svmEval
  | svmSave
  | xgbSearch
  | xgbEval
  | xgbSave
  | leSave
deriving DecidableEq

/-- Everything one run of the script computes and does. -/
structure RunResult where
  trace : List Step
  data : EncMat
  classes : List String
  labels : Labels
  trainIdx : List Nat
  testIdx : List Nat
  X_train : EncMat
  X_test : EncMat
  y_train : Labels
  y_test : Labels
  svmCandidates : List SvmParams
  svmFolds : List Fold
  best_svm : SvmModel
  svm_y_pred : Labels
  xgbSampled : List XgbParams
  xgbFolds : List Fold
  best_xgb : XgbModel
  xgb_y_pred : Labels
  writes : List (String × List Nat)

/-- The body of train.py (lines 38-143) after the input pickle has been read
successfully, as a pure function of the oracles and the input.  The trace
records the source order of the steps. -/
def runScript (ml : MlOracle) (rng : Rng) (dp : DataPickle) : RunResult where
  trace := [Step.loadData, Step.encodeLabels, Step.splitData, Step.makeSKF,
    Step.svmSearch, Step.svmEval, Step.svmSave,
    Step.xgbSearch, Step.xgbEval, Step.xgbSave, Step.leSave]
  data := dataOf dp
  classes := classesOf dp
  labels := labelsOf dp
  trainIdx := trainIdxOf rng dp
  testIdx := testIdxOf rng dp
  X_train := X_trainOf rng dp
  X_test := X_testOf rng dp
  y_train := y_trainOf rng dp
  y_test := y_testOf rng dp
  svmCandidates := svmParamGrid
  svmFolds := svmFoldsOf rng dp
  best_svm := best_svmOf ml rng dp
  svm_y_pred := svm_y_predOf ml rng dp
  xgbSampled := xgbSampledOf rng
  xgbFolds := xgbFoldsOf rng dp
  best_xgb := best_xgbOf ml rng dp
  xgb_y_pred := xgb_y_predOf ml rng dp
  writes := scriptWrites ml rng dp

/-- The validation the fold generator performs when it is first consumed
inside `GridSearchCV.fit` (sklearn `_BaseKFold.split`): it raises
`ValueError` when `n_splits` exceeds the number of samples handed to
`split` — here the size of the training split.  On an input that fails it,
the script dies uncaught after loading and splitting but before any file is
written. -/
def foldCountOk (dp : DataPickle) : Bool :=
  decide (FOLDS ≤ (dataOf dp).length - nTestOf (dataOf dp).length)

/-- The whole script run: reading the input file may fail (`none`), in which
case the uncaught exception terminates the script before anything is written;
an input whose training split is smaller than the fold count likewise dies
uncaught (in the fold validation inside the SVM grid search) with nothing
written.  Other library preconditions (e.g. at least two distinct labels) are
assumed to hold.  The script reads no command-line arguments and no
environment variables; the `argv` and `env` parameters exist to state that
they are never consulted. -/
def runTop (ml : MlOracle) (rng : Rng) (argv : List String)
    (env : String → Option String) (input : Option DataPickle) :
    Except Unit RunResult :=
  match input, argv, env with
  | none, _, _ => Except.error ()
  | some dp, _, _ =>
    if foldCountOk dp then Except.ok (runScript ml rng dp) else Except.error ()

/-- The file writes a run performs (empty when the run died on loading). -/
def writesOf (r : Except Unit RunResult) : List (String × List Nat) :=
  match r with
  | Except.error _ => []
  | Except.ok res => res.writes

/-- Applying a list of `'wb'`-mode writes to a filesystem: each write
truncates, so the file's new content is exactly the written bytes, whatever
was at that path before. -/
def applyWrites (fs : String → Option (List Nat)) :
    List (String × List Nat) → String → Option (List Nat)
  | [] => fs
  | (p, b) :: rest => applyWrites (Function.update fs p (some b)) rest

/-- A trivial instantiation of the random streams, used to evaluate the model
on concrete inputs: the identity permutation and sampling the first
`n` grid entries. -/
def rng0 : Rng where
  shufflePerm := fun _ n => List.range n
  sampleXgb := fun _ m => xgbFullGrid.take m

/-- A trivial instantiation of the numeric oracle, used to evaluate the model
on concrete inputs. -/
def ml0 : MlOracle where
  cvScoreSvm := fun _ _ _ _ _ => 0
  cvScoreXgb := fun _ _ _ _ _ => 0
  predictSvm := fun _ _ => 0
  predictXgb := fun _ _ => 0
  pickleSvm := fun _ => [0]
  pickleXgb := fun _ => [1]
  pickleLE := fun _ => [2]

/-- A five-sample input, used to evaluate the run body on concrete data.  Its
training split has only 4 samples, so on it a real run dies in the 5-fold
validation (`foldCountOk` is false) before writing anything. -/
def shortDP : DataPickle := ⟨[[0], [0], [0], [0], [0]], ["a", "a", "b", "b", "a"]⟩

/-- Input with a single 128-component encoding. -/
def dp128 : DataPickle := ⟨[List.replicate 128 0], ["a"]⟩

/-- A thirty-sample input whose encodings all have two components, not 128:
three classes of ten samples each.  The real script completes on it: the
numpy seed-1234 permutation of `0..29` starts `7, 10, 4, 1, 28, 8`, so the
6-sample test split drawn by `train_test_split` holds two samples of each
class and the 24-sample training split eight of each; the 5-fold validation
passes (5 ≤ 24), no class is rarer than the fold count, every fold's
training part keeps all three classes, and `classification_report` sees all
three target names.  The labels below place classes a, c, b at exactly those
indices. -/
def badDimDP : DataPickle :=
  ⟨[[0, 0], [1, 0], [2, 0], [3, 0], [4, 20], [5, 0], [6, 0], [7, 0], [8, 20],
    [9, 0], [10, 10], [11, 0], [12, 0], [13, 10], [14, 10], [15, 10], [16, 10],
    [17, 10], [18, 10], [19, 10], [20, 10], [21, 20], [22, 20], [23, 20],
    [24, 20], [25, 20], [26, 20], [27, 20], [28, 10], [29, 20]],
   ["a", "a", "a", "a", "c", "a", "a", "a", "c", "a", "b", "a", "a", "b", "b",
    "b", "b", "b", "b", "b", "b", "c", "c", "c", "c", "c", "c", "c", "b", "c"]⟩

/-- The mean cross-validation score the SVM grid search assigns a candidate
in this run: scored with `random_state=RANDOM_SEED` on the training split and
the stratified folds (train.py lines 63-65, 116). -/
def svmScoreOf (ml : MlOracle) (rng : Rng) (dp : DataPickle) (p : SvmParams) : ℚ :=
  ml.cvScoreSvm RANDOM_SEED p (X_trainOf rng dp) (y_trainOf rng dp) (svmFoldsOf rng dp)

/-- The mean cross-validation score the XGBoost random search assigns a
candidate in this run (train.py lines 91-94, 128-129). -/
def xgbScoreOf (ml : MlOracle) (rng : Rng) (dp : DataPickle) (p : XgbParams) : ℚ :=
  ml.cvScoreXgb RANDOM_SEED p (X_trainOf rng dp) (y_trainOf rng dp) (xgbFoldsOf rng dp)


/-! ### General lemmas about the embedded operations -/

theorem npUnique_perm_dedup (names : List String) :
    List.Perm (npUnique names) names.dedup := by
  unfold npUnique
  exact List.perm_insertionSort _ _

theorem npUnique_nodup (names : List String) : (npUnique names).Nodup :=
  ((npUnique_perm_dedup names).nodup_iff).mpr names.nodup_dedup

theorem mem_npUnique {names : List String} {s : String} :
    s ∈ npUnique names ↔ s ∈ names := by
  rw [(npUnique_perm_dedup names).mem_iff, List.mem_dedup]

example : npUnique ["bob", "alice", "bob", "carol"] = ["alice", "bob", "carol"] := by decide

example : leTransform (npUnique ["bob", "alice", "bob"]) "bob" = 1 := by decide

theorem leTransform_lt_of_mem {names : List String} {l : String} (h : l ∈ names) :
    leTransform (npUnique names) l < (npUnique names).length :=
  List.indexOf_lt_length.mpr (mem_npUnique.mpr h)

theorem leInverse_leTransform {names : List String} {l : String} (h : l ∈ names) :
    leInverse (npUnique names) (leTransform (npUnique names) l) = l := by
  have hlt := leTransform_lt_of_mem h
  rw [leInverse, List.getD_eq_getElem _ _ hlt]
  exact List.getElem_indexOf hlt

theorem leTransform_leInverse {names : List String} {i : Nat}
    (h : i < (npUnique names).length) :
    leTransform (npUnique names) (leInverse (npUnique names) i) = i := by
  rw [leInverse, List.getD_eq_getElem _ _ h]
  exact List.indexOf_getElem (npUnique_nodup names) i h

/-- C2: the label encoder fit on the full label list is a bijection between the
distinct string labels and the contiguous indices `0..k-1`: transforming a
label and decoding the result returns the original label, every transformed
index lies below `k`, and conversely every index in `0..k-1` decodes to a
class that transforms back to it. -/
theorem C2_labelEncoder_bijection (names : List String) :
    (∀ l ∈ names,
        leInverse (npUnique names) (leTransform (npUnique names) l) = l ∧
        leTransform (npUnique names) l < (npUnique names).length) ∧
    (∀ i, i < (npUnique names).length →
        leTransform (npUnique names) (leInverse (npUnique names) i) = i) :=
  ⟨fun _ hl => ⟨leInverse_leTransform hl, leTransform_lt_of_mem hl⟩,
   fun _ hi => leTransform_leInverse hi⟩

/-- Witness for C2 at a concrete three-name dataset with two distinct labels. -/
theorem C2_labelEncoder_bijection_witness :
    leInverse (npUnique ["bob", "alice", "bob"])
        (leTransform (npUnique ["bob", "alice", "bob"]) "alice") = "alice" ∧
    leTransform (npUnique ["bob", "alice", "bob"]) "alice" <
        (npUnique ["bob", "alice", "bob"]).length ∧
    leTransform (npUnique ["bob", "alice", "bob"])
        (leInverse (npUnique ["bob", "alice", "bob"]) 1) = 1 := by
  refine ⟨((C2_labelEncoder_bijection ["bob", "alice", "bob"]).1 "alice" (by decide)).1,
    ((C2_labelEncoder_bijection ["bob", "alice", "bob"]).1 "alice" (by decide)).2,
    (C2_labelEncoder_bijection ["bob", "alice", "bob"]).2 1 (by decide)⟩

example : svmParamGrid.length = 42 := by decide

set_option maxRecDepth 4000 in
example : xgbFullGrid.length = 405 := by decide

theorem bestBy_eq_none {α : Type} {score : α → ℚ} :
    ∀ {l : List α}, bestBy score l = none ↔ l = []
  | [] => by simp [bestBy]
  | a :: rest => by
    simp only [bestBy]
    cases h : bestBy score rest with
    | none => simp
    | some c => by_cases hc : score a < score c <;> simp [hc]

theorem bestBy_mem {α : Type} {score : α → ℚ} :
    ∀ {l : List α} {b : α}, bestBy score l = some b → b ∈ l
  | [], b, h => by simp [bestBy] at h
  | a :: rest, b, h => by
    rcases hres : bestBy score rest with _ | c <;> simp only [bestBy, hres] at h
    · obtain rfl := Option.some.inj h
      exact List.mem_cons_self a rest
    · by_cases hc : score a < score c
      · rw [if_pos hc] at h
        obtain rfl := Option.some.inj h
        exact List.mem_cons_of_mem a (bestBy_mem hres)
      · rw [if_neg hc] at h
        obtain rfl := Option.some.inj h
        exact List.mem_cons_self a rest

theorem bestBy_le {α : Type} {score : α → ℚ} :
    ∀ {l : List α} {b : α}, bestBy score l = some b → ∀ a ∈ l, score a ≤ score b
  | [], b, h => by simp [bestBy] at h
  | a :: rest, b, h => by
    rcases hres : bestBy score rest with _ | c <;> simp only [bestBy, hres] at h
    · obtain rfl := bestBy_eq_none.mp hres
      obtain rfl := Option.some.inj h
      intro x hx
      rw [List.mem_singleton] at hx
      subst hx
      exact le_refl _
    · by_cases hc : score a < score c
      · rw [if_pos hc] at h
        obtain rfl := Option.some.inj h
        intro x hx
        rcases List.mem_cons.mp hx with rfl | hxr
        · exact le_of_lt hc
        · exact bestBy_le hres x hxr
      · rw [if_neg hc] at h
        obtain rfl := Option.some.inj h
        intro x hx
        rcases List.mem_cons.mp hx with rfl | hxr
        · exact le_refl _
        · exact le_trans (bestBy_le hres x hxr) (not_lt.mp hc)

theorem bestBy_isSome {α : Type} {score : α → ℚ} {l : List α} (h : l ≠ []) :
    (bestBy score l).isSome := by
  cases l with
  | nil => exact absurd rfl h
  | cons a rest =>
    rw [bestBy]
    rcases bestBy score rest with _ | c
    · rfl
    · by_cases hc : score a < score c <;> simp [hc]

theorem skfSplit_length (k : Nat) (y : Labels) : (skfSplit k y).length = k := by
  simp [skfSplit]
/-! ### Claim theorems -/

theorem bestByD_mem {α : Type} {score : α → ℚ} {l : List α} (h : l ≠ []) (d : α) :
    (bestBy score l).getD d ∈ l := by
  rcases hs : bestBy score l with _ | b
  · exact absurd (bestBy_eq_none.mp hs) h
  · simpa using bestBy_mem hs

theorem bestByD_le {α : Type} {score : α → ℚ} {l : List α} (h : l ≠ []) (d : α)
    {a : α} (ha : a ∈ l) : score a ≤ score ((bestBy score l).getD d) := by
  rcases hs : bestBy score l with _ | b
  · exact absurd (bestBy_eq_none.mp hs) h
  · simpa using bestBy_le hs a ha

theorem svmParamGrid_ne_nil : svmParamGrid ≠ [] := by decide

/-- C1: the SVM is selected by exhaustive grid search over the fixed grid and
the boosted tree by randomized search over candidates sampled from its fixed
grid, both scored by cross-validation; in each case the estimator the search
returns as best (highest cross-validation score, first on ties) is exactly
the one evaluated on the held-out split and serialized to disk. -/
theorem C1_best_estimator_evaluated_and_saved (ml : MlOracle) (rng : Rng)
    (dp : DataPickle) (r : RunResult) (hr : runScript ml rng dp = r)
    (hxne : rng.sampleXgb RANDOM_SEED PARA_COMB ≠ [])
    (hxsub : ∀ p ∈ rng.sampleXgb RANDOM_SEED PARA_COMB, p ∈ xgbFullGrid) :
    (r.svmCandidates = svmParamGrid ∧
      r.best_svm.params ∈ svmParamGrid ∧
      (∀ p ∈ svmParamGrid,
        svmScoreOf ml rng dp p ≤ svmScoreOf ml rng dp r.best_svm.params) ∧
      r.svm_y_pred = r.X_test.map (ml.predictSvm r.best_svm) ∧
      (SVM_MODEL_PATH, ml.pickleSvm r.best_svm) ∈ r.writes) ∧
    (r.xgbSampled = rng.sampleXgb RANDOM_SEED PARA_COMB ∧
      r.best_xgb.params ∈ r.xgbSampled ∧
      r.best_xgb.params ∈ xgbFullGrid ∧
      (∀ p ∈ r.xgbSampled,
        xgbScoreOf ml rng dp p ≤ xgbScoreOf ml rng dp r.best_xgb.params) ∧
      r.xgb_y_pred = r.X_test.map (ml.predictXgb r.best_xgb) ∧
      (XGB_MODEL_PATH, ml.pickleXgb r.best_xgb) ∈ r.writes) := by
  subst hr
  refine ⟨⟨rfl, ?_, ?_, rfl, ?_⟩, ⟨rfl, ?_, ?_, ?_, rfl, ?_⟩⟩
  · show (bestBy (svmScoreOf ml rng dp) svmParamGrid).getD ⟨0, none, ""⟩ ∈ svmParamGrid
    exact bestByD_mem svmParamGrid_ne_nil _
  · show ∀ p ∈ svmParamGrid, svmScoreOf ml rng dp p ≤
      svmScoreOf ml rng dp ((bestBy (svmScoreOf ml rng dp) svmParamGrid).getD ⟨0, none, ""⟩)
    exact fun p hp => bestByD_le svmParamGrid_ne_nil _ hp
  · exact List.mem_cons_self _ _
  · show (bestBy (xgbScoreOf ml rng dp) (rng.sampleXgb RANDOM_SEED PARA_COMB)).getD
        ⟨0, 0, 0, 0, 0⟩ ∈ rng.sampleXgb RANDOM_SEED PARA_COMB
    exact bestByD_mem hxne _
  · show (bestBy (xgbScoreOf ml rng dp) (rng.sampleXgb RANDOM_SEED PARA_COMB)).getD
        ⟨0, 0, 0, 0, 0⟩ ∈ xgbFullGrid
    exact hxsub _ (bestByD_mem hxne _)
  · show ∀ p ∈ rng.sampleXgb RANDOM_SEED PARA_COMB, xgbScoreOf ml rng dp p ≤
      xgbScoreOf ml rng dp
        ((bestBy (xgbScoreOf ml rng dp) (rng.sampleXgb RANDOM_SEED PARA_COMB)).getD
          ⟨0, 0, 0, 0, 0⟩)
    exact fun p hp => bestByD_le hxne _ hp
  · exact List.mem_cons_of_mem _ (List.mem_cons_self _ _)

/-- Witness for C1: the trivial oracle instantiation on the concrete
five-sample dataset. -/
theorem C1_witness :
    ((runScript ml0 rng0 shortDP).svmCandidates = svmParamGrid ∧
      (runScript ml0 rng0 shortDP).best_svm.params ∈ svmParamGrid ∧
      (∀ p ∈ svmParamGrid,
        svmScoreOf ml0 rng0 shortDP p ≤
          svmScoreOf ml0 rng0 shortDP (runScript ml0 rng0 shortDP).best_svm.params) ∧
      (runScript ml0 rng0 shortDP).svm_y_pred =
        (runScript ml0 rng0 shortDP).X_test.map
          (ml0.predictSvm (runScript ml0 rng0 shortDP).best_svm) ∧
      (SVM_MODEL_PATH, ml0.pickleSvm (runScript ml0 rng0 shortDP).best_svm) ∈
        (runScript ml0 rng0 shortDP).writes) ∧
    ((runScript ml0 rng0 shortDP).xgbSampled = rng0.sampleXgb RANDOM_SEED PARA_COMB ∧
      (runScript ml0 rng0 shortDP).best_xgb.params ∈
        (runScript ml0 rng0 shortDP).xgbSampled ∧
      (runScript ml0 rng0 shortDP).best_xgb.params ∈ xgbFullGrid ∧
      (∀ p ∈ (runScript ml0 rng0 shortDP).xgbSampled,
        xgbScoreOf ml0 rng0 shortDP p ≤
          xgbScoreOf ml0 rng0 shortDP (runScript ml0 rng0 shortDP).best_xgb.params) ∧
      (runScript ml0 rng0 shortDP).xgb_y_pred =
        (runScript ml0 rng0 shortDP).X_test.map
          (ml0.predictXgb (runScript ml0 rng0 shortDP).best_xgb) ∧
      (XGB_MODEL_PATH, ml0.pickleXgb (runScript ml0 rng0 shortDP).best_xgb) ∈
        (runScript ml0 rng0 shortDP).writes) :=
  C1_best_estimator_evaluated_and_saved ml0 rng0 shortDP _ rfl (by decide)
    (fun p hp => List.take_subset _ _ hp)

/-- C3 counterexample: the script performs no dimension check, so it accepts
the concrete thirty-sample dataset `badDimDP` (its training split passes the
5-fold validation and it completes — see `badDimDP`), yet every row of the
encoding matrix it trains on has 2 components, not 128. -/
theorem C3_counterexample :
    foldCountOk badDimDP = true ∧
    runTop ml0 rng0 [] (fun _ => none) (some badDimDP) =
      Except.ok (runScript ml0 rng0 badDimDP) ∧
    (runScript ml0 rng0 badDimDP).data = badDimDP.encodings ∧
    ((runScript ml0 rng0 badDimDP).data.getD 0 []).length = 2 ∧
    ¬ ∀ row ∈ (runScript ml0 rng0 badDimDP).data, row.length = 128 :=
  ⟨rfl, rfl, rfl, rfl, by decide⟩

/-- Faithfulness of the rejection path the run models: on the five-sample
`shortDP` the training split has 4 samples, the 5-fold validation fails, and
the run terminates with nothing written — as the real script does there. -/
theorem runTop_rejects_small_training_split (ml : MlOracle) (rng : Rng)
    (argv : List String) (env : String → Option String) :
    foldCountOk shortDP = false ∧
    runTop ml rng argv env (some shortDP) = Except.error () ∧
    writesOf (runTop ml rng argv env (some shortDP)) = [] :=
  ⟨rfl, rfl, rfl⟩

/-- C3 amended: the script copies each input encoding into the matrix
unchanged and checks nothing about its length, so every row of the encoding
matrix has exactly 128 components if (and only if) every encoding of the
input file does. -/
theorem C3_amended_rows_are_input_rows (ml : MlOracle) (rng : Rng)
    (dp : DataPickle) (h : ∀ e ∈ dp.encodings, e.length = 128) :
    (runScript ml rng dp).data = dp.encodings ∧
    ∀ row ∈ (runScript ml rng dp).data, row.length = 128 :=
  ⟨rfl, fun row hr => h row hr⟩

set_option maxRecDepth 4000 in
/-- Witness for the amended C3 at a concrete single-row 128-component
dataset. -/
theorem C3_amended_witness :
    (runScript ml0 rng0 dp128).data = dp128.encodings ∧
    ∀ row ∈ (runScript ml0 rng0 dp128).data, row.length = 128 :=
  C3_amended_rows_are_input_rows ml0 rng0 dp128 (by decide)

theorem applyWrites_three (fs : String → Option (List Nat))
    (p1 p2 p3 : String) (b1 b2 b3 : List Nat) (q : String) :
    applyWrites fs [(p1, b1), (p2, b2), (p3, b3)] q =
      if q = p3 then some b3
      else if q = p2 then some b2
      else if q = p1 then some b1
      else fs q := by
  simp only [applyWrites, Function.update_apply]

/-- C4: a successful run writes exactly three files — the SVM model, the
boosted-tree model and the label encoder, in that order at their fixed
hardcoded paths — and each write replaces whatever the filesystem previously
held at that path wholesale; every other path is untouched. -/
theorem C4_exactly_three_files_written (ml : MlOracle) (rng : Rng)
    (dp : DataPickle) (fs : String → Option (List Nat)) :
    (runScript ml rng dp).writes =
      [(SVM_MODEL_PATH, ml.pickleSvm (best_svmOf ml rng dp)),
       (XGB_MODEL_PATH, ml.pickleXgb (best_xgbOf ml rng dp)),
       (LABEL_PATH, ml.pickleLE (classesOf dp))] ∧
    applyWrites fs (runScript ml rng dp).writes SVM_MODEL_PATH =
      some (ml.pickleSvm (best_svmOf ml rng dp)) ∧
    applyWrites fs (runScript ml rng dp).writes XGB_MODEL_PATH =
      some (ml.pickleXgb (best_xgbOf ml rng dp)) ∧
    applyWrites fs (runScript ml rng dp).writes LABEL_PATH =
      some (ml.pickleLE (classesOf dp)) ∧
    ∀ q, q ≠ SVM_MODEL_PATH → q ≠ XGB_MODEL_PATH → q ≠ LABEL_PATH →
      applyWrites fs (runScript ml rng dp).writes q = fs q := by
  have hw : (runScript ml rng dp).writes =
      [(SVM_MODEL_PATH, ml.pickleSvm (best_svmOf ml rng dp)),
       (XGB_MODEL_PATH, ml.pickleXgb (best_xgbOf ml rng dp)),
       (LABEL_PATH, ml.pickleLE (classesOf dp))] := rfl
  refine ⟨hw, ?_, ?_, ?_, ?_⟩
  · rw [hw, applyWrites_three, if_neg (by decide), if_neg (by decide), if_pos rfl]
  · rw [hw, applyWrites_three, if_neg (by decide), if_pos rfl]
  · rw [hw, applyWrites_three, if_pos rfl]
  · intro q h1 h2 h3
    rw [hw, applyWrites_three, if_neg h3, if_neg h2, if_neg h1]

/-- Witness for C4: at the trivial oracles, the concrete dataset, the empty
filesystem and the unrelated path `/tmp/other`. -/
theorem C4_witness :
    applyWrites (fun _ => none) (runScript ml0 rng0 shortDP).writes "/tmp/other" =
      (fun (_ : String) => (none : Option (List Nat))) "/tmp/other" :=
  (C4_exactly_three_files_written ml0 rng0 shortDP (fun _ => none)).2.2.2.2
    "/tmp/other" (by decide) (by decide) (by decide)

/-- C5: the steps occur in the fixed source order — deserialize, encode
labels, split, construct the stratified splitter, svm search / evaluate /
save, xgb search / evaluate / save, label-encoder save last — and in
particular the svm model file is written before the xgb search begins, and
the three writes happen svm-model first, xgb-model second, label-encoder
last. -/
theorem C5_fixed_step_order (ml : MlOracle) (rng : Rng) (dp : DataPickle) :
    (runScript ml rng dp).trace =
      [Step.loadData, Step.encodeLabels, Step.splitData, Step.makeSKF,
       Step.svmSearch, Step.svmEval, Step.svmSave,
       Step.xgbSearch, Step.xgbEval, Step.xgbSave, Step.leSave] ∧
    (runScript ml rng dp).trace.indexOf Step.svmSave <
      (runScript ml rng dp).trace.indexOf Step.xgbSearch ∧
    (runScript ml rng dp).writes.map Prod.fst =
      [SVM_MODEL_PATH, XGB_MODEL_PATH, LABEL_PATH] := by
  refine ⟨rfl, ?_, rfl⟩
  have h1 : (runScript ml rng dp).trace.indexOf Step.svmSave = 6 := rfl
  have h2 : (runScript ml rng dp).trace.indexOf Step.xgbSearch = 7 := rfl
  rw [h1, h2]
  exact Nat.lt_succ_self 6

/-- C6: the script installs no exception handler, so a failure while loading
or deserializing the input pickle terminates the run before anything else
happens, and none of the three output files is written. -/
theorem C6_load_failure_writes_nothing (ml : MlOracle) (rng : Rng)
    (argv : List String) (env : String → Option String) :
    runTop ml rng argv env none = Except.error () ∧
    writesOf (runTop ml rng argv env none) = [] :=
  ⟨rfl, rfl⟩

/-- C7: the run consults neither the command line nor the environment — two
runs that differ only in `argv` or `env` produce identical results on every
input-file content. -/
theorem C7_independent_of_argv_env (ml : MlOracle) (rng : Rng)
    (argv argv' : List String) (env env' : String → Option String)
    (input : Option DataPickle) :
    runTop ml rng argv env input = runTop ml rng argv' env' input := by
  cases input <;> rfl

/-- C8: the single fixed seed 1234 is the only seed ever handed to the random
streams: the run is unchanged if the pseudo-random source is replaced by any
other source that agrees at seed `RANDOM_SEED = 1234`, and both refit best
estimators carry `random_state = 1234`.  Hence two runs on the same input
deterministically produce the same split, sampled candidates and selected
models. -/
theorem C8_only_seed_1234_consulted (ml : MlOracle) (rng rng' : Rng)
    (dp : DataPickle)
    (hperm : rng.shufflePerm RANDOM_SEED = rng'.shufflePerm RANDOM_SEED)
    (hsample : rng.sampleXgb RANDOM_SEED = rng'.sampleXgb RANDOM_SEED) :
    runScript ml rng dp = runScript ml rng' dp ∧
    (runScript ml rng dp).best_svm.random_state = RANDOM_SEED ∧
    (runScript ml rng dp).best_xgb.random_state = RANDOM_SEED := by
  refine ⟨?_, rfl, rfl⟩
  simp only [runScript, dataOf, classesOf, labelsOf, permOf, testIdxOf, trainIdxOf,
    X_trainOf, X_testOf, y_trainOf, y_testOf, svmFoldsOf, xgbFoldsOf, xgbSampledOf,
    best_svmOf, best_xgbOf, svm_y_predOf, xgb_y_predOf, scriptWrites,
    find_best_svm_estimator, find_best_xgb_estimator, hperm, hsample]

/-- Witness for C8: two identical trivial random sources. -/
theorem C8_witness :
    runScript ml0 rng0 shortDP = runScript ml0 rng0 shortDP ∧
    (runScript ml0 rng0 shortDP).best_svm.random_state = RANDOM_SEED ∧
    (runScript ml0 rng0 shortDP).best_xgb.random_state = RANDOM_SEED :=
  C8_only_seed_1234_consulted ml0 rng0 rng0 shortDP rfl rfl

theorem nTestOf_le (n : Nat) : nTestOf n ≤ n := by
  unfold nTestOf
  omega

/-- C9: the held-out split takes exactly `ceil(0.20 * n)` samples as the test
set — chosen as a prefix of the seeded shuffle of all the indices, with no
stratification — and the remaining `n - ceil(0.20 * n)` as the train set; the
two index sets are disjoint and together are a permutation of all `n` sample
indices. -/
theorem C9_split_sizes_partition (ml : MlOracle) (rng : Rng) (dp : DataPickle)
    (hperm : List.Perm (permOf rng dp) (List.range (dataOf dp).length)) :
    (runScript ml rng dp).testIdx.length = nTestOf (dataOf dp).length ∧
    (runScript ml rng dp).trainIdx.length =
      (dataOf dp).length - nTestOf (dataOf dp).length ∧
    (runScript ml rng dp).X_test.length = nTestOf (dataOf dp).length ∧
    (runScript ml rng dp).X_train.length =
      (dataOf dp).length - nTestOf (dataOf dp).length ∧
    List.Disjoint (runScript ml rng dp).trainIdx (runScript ml rng dp).testIdx ∧
    List.Perm ((runScript ml rng dp).trainIdx ++ (runScript ml rng dp).testIdx)
      (List.range (dataOf dp).length) := by
  have hlen : (permOf rng dp).length = (dataOf dp).length := by
    simpa using hperm.length_eq
  have hnd : (permOf rng dp).Nodup := hperm.nodup_iff.mpr (List.nodup_range _)
  have htest : (runScript ml rng dp).testIdx.length = nTestOf (dataOf dp).length := by
    show ((permOf rng dp).take (nTestOf (dataOf dp).length)).length = _
    rw [List.length_take, hlen]
    exact min_eq_left (nTestOf_le _)
  have htrain : (runScript ml rng dp).trainIdx.length =
      (dataOf dp).length - nTestOf (dataOf dp).length := by
    show ((permOf rng dp).drop (nTestOf (dataOf dp).length)).length = _
    rw [List.length_drop, hlen]
  have hsplitnd : (((permOf rng dp).take (nTestOf (dataOf dp).length)) ++
      ((permOf rng dp).drop (nTestOf (dataOf dp).length))).Nodup := by
    rw [List.take_append_drop]
    exact hnd
  refine ⟨htest, htrain, ?_, ?_, ?_, ?_⟩
  · show (((runScript ml rng dp).testIdx).map _).length = _
    rw [List.length_map]
    exact htest
  · show (((runScript ml rng dp).trainIdx).map _).length = _
    rw [List.length_map]
    exact htrain
  · exact ((List.nodup_append.mp hsplitnd).2.2).symm
  · show ((permOf rng dp).drop (nTestOf (dataOf dp).length) ++
      (permOf rng dp).take (nTestOf (dataOf dp).length)).Perm
      (List.range (dataOf dp).length)
    refine List.perm_append_comm.trans ?_
    rw [List.take_append_drop]
    exact hperm

/-- Witness for C9: the trivial random source (identity permutation) on the
concrete five-sample dataset. -/
theorem C9_witness :
    (runScript ml0 rng0 shortDP).testIdx.length = nTestOf (dataOf shortDP).length ∧
    (runScript ml0 rng0 shortDP).trainIdx.length =
      (dataOf shortDP).length - nTestOf (dataOf shortDP).length ∧
    (runScript ml0 rng0 shortDP).X_test.length = nTestOf (dataOf shortDP).length ∧
    (runScript ml0 rng0 shortDP).X_train.length =
      (dataOf shortDP).length - nTestOf (dataOf shortDP).length ∧
    List.Disjoint (runScript ml0 rng0 shortDP).trainIdx
      (runScript ml0 rng0 shortDP).testIdx ∧
    List.Perm ((runScript ml0 rng0 shortDP).trainIdx ++
      (runScript ml0 rng0 shortDP).testIdx) (List.range (dataOf shortDP).length) :=
  C9_split_sizes_partition ml0 rng0 shortDP (List.Perm.refl _)

/-- C10: both hyperparameter searches are scored on identical
cross-validation folds: the stratified splitter is constructed with 5 folds
and no shuffling, and the two separate `split` calls on the same training
data yield the same sequence of exactly 5 (train, validation) fold pairs. -/
theorem C10_identical_cv_folds (ml : MlOracle) (rng : Rng) (dp : DataPickle) :
    (runScript ml rng dp).svmFolds = (runScript ml rng dp).xgbFolds ∧
    (runScript ml rng dp).svmFolds =
      skfSplit FOLDS (runScript ml rng dp).y_train ∧
    (runScript ml rng dp).svmFolds.length = 5 := by
  refine ⟨rfl, rfl, ?_⟩
  show (skfSplit FOLDS (y_trainOf rng dp)).length = 5
  rw [skfSplit_length]
  rfl
